import Mathlib

/-!
Verification of the TLN output module (`plaso/output/tln.py`).

The module renders forensic timeline events into the 5-field TLN and the
7-field L2T-extended-TLN pipe-delimited text formats.  The development below
is a shallow embedding of the module: events, event data and the output
mediator become Lean structures, the field formatting callbacks become Lean
functions, and fallible formatting returns `Except`.

External collaborators that the module calls but whose code is not part of
the reviewed source (the base `FieldFormattingHelper` class, `timelib`,
`dfdatetime`) are modelled from the specification; every such definition is
marked `Modelled from the spec:` in its doc comment.
-/

namespace PlasoTLN

/-- An event: per the data model it carries a numeric epoch-microsecond
timestamp and a timestamp-description label.  `timestamp_desc` is `none`
when the event carries no description label; Python code treats both a
missing label and an empty string as absent (falsy). -/
structure EventObject where
  timestamp : Int
  timestamp_desc : Option String
deriving DecidableEq

/-- Event data: a record of optional named attributes, read-only to the
module.  Attributes the TLN formatters probe with `getattr` are optional
fields; `none` models an absent attribute. -/
structure EventData where
  data_type : Option String
  notes : Option String
  display_name : Option String
  inode : Option Int
  hostname : Option String
  username : Option String
  source_short : Option String
deriving DecidableEq

/-- Event data stream: opaque record associated with an event, used for
inode/path derived fields. -/
structure EventDataStream where
  inode : Option Int
deriving DecidableEq

/-- The output mediator collaborator.  `copyToIsoFormat` stands for
`timelib.Timestamp.CopyToIsoFormat(timestamp, timezone=self._output_mediator.timezone)`
(Modelled from the spec: the mediator exposes a timestamp-to-ISO-8601
conversion in the configured output time zone).  `getFormattedMessages`
stands for `OutputMediator.GetFormattedMessages(event_data)`, returning a
message and a short message, each possibly absent (Modelled from the spec:
the message-formatting collaborator resolves the event data's data type to
a formatter, or fails to).  `timezone_name` is the configured time zone's
display name. -/
structure OutputMediator where
  copyToIsoFormat : Int → String
  getFormattedMessages : EventData → Option String × Option String
  timezone_name : String

/-- Errors surfaced by formatting.  `noFormatterFound` embeds
`plaso.lib.errors.NoFormatterFound`; `unknownField` is the configuration
error for a field name missing from the callback registry. -/
inductive FormatError where
  | noFormatterFound (message : String)
  | unknownField (field_name : String)
deriving DecidableEq

/-- `TLNFieldFormattingHelper`: its only state is the output mediator held
by the base class. -/
structure TLNFieldFormattingHelper where
  output_mediator : OutputMediator

/-- `_DESCRIPTION_FIELD_DELIMITER = ';'`. -/
def DESCRIPTION_FIELD_DELIMITER : Char := ';'

/-- `message.replace(self._DESCRIPTION_FIELD_DELIMITER, ' ')`: the pattern
and the replacement are single characters, so Python's `str.replace` is the
character-wise map replacing every `;` with one space. -/
def replaceDescriptionDelimiter (message : String) : String :=
  String.mk (message.data.map fun c =>
    if c = DESCRIPTION_FIELD_DELIMITER then ' ' else c)

/-- `TLNFieldFormattingHelper._FormatDescription`.  Builds
`'{0:s}; {1:s}; {2:s}'.format(date_time_string, timestamp_description,
message-with-';'-replaced)`; raises `NoFormatterFound` when the mediator
resolves no message. -/
def _FormatDescription (h : TLNFieldFormattingHelper) (event : EventObject)
    (event_data : EventData) (event_data_stream : EventDataStream) :
    Except FormatError String :=
  let date_time_string := h.output_mediator.copyToIsoFormat event.timestamp
  let timestamp_description :=
    match event.timestamp_desc with
    | none => "UNKNOWN"
    | some label => if label = "" then "UNKNOWN" else label
  match (h.output_mediator.getFormattedMessages event_data).1 with
  | none =>
      let data_type := event_data.data_type.getD "UNKNOWN"
      Except.error (FormatError.noFormatterFound
        ("Unable to find event formatter for: " ++ data_type ++ "."))
  | some message =>
      Except.ok (date_time_string ++ "; " ++ timestamp_description ++ "; " ++
        replaceDescriptionDelimiter message)

/-- Modelled from the spec: `_FormatInode` is defined on the base
`FieldFormattingHelper` class (`plaso.output.formatting_helper`), which is
not part of the reviewed source.  Per §4.2 it extracts the inode scalar
from the event data or the event data stream and substitutes the
placeholder `-` when the attribute is missing, never failing the record. -/
def _FormatInode (h : TLNFieldFormattingHelper) (event : EventObject)
    (event_data : EventData) (event_data_stream : EventDataStream) : String :=
  match event_data.inode with
  | some value => toString value
  | none =>
      match event_data_stream.inode with
      | some value => toString value
      | none => "-"

/-- `TLNFieldFormattingHelper._FormatNotes`: returns the `notes` attribute
when truthy, otherwise `'File: {0:s} inode: {1!s}'.format(display_name, inode)`
with `display_name` defaulting to the empty string. -/
def _FormatNotes (h : TLNFieldFormattingHelper) (event : EventObject)
    (event_data : EventData) (event_data_stream : EventDataStream) : String :=
  let inode := _FormatInode h event event_data event_data_stream
  let notes := event_data.notes.getD ""
  if notes = "" then
    let display_name := event_data.display_name.getD ""
    "File: " ++ display_name ++ " inode: " ++ inode
  else
    notes

/-- Modelled from the spec: `dfdatetime.posix_time.PosixTimeInMicroseconds`
and its `CopyToPosixTimestamp` are an external collaborator, not part of
the reviewed source.  Per §4.2 FormatTimestamp, it converts the
epoch-microsecond timestamp to a 32-bit POSIX whole-second value by
truncation, and produces no value when the timestamp predates the epoch or
cannot be represented in 32 bits. -/
def CopyToPosixTimestamp (timestamp : Int) : Option Int :=
  if timestamp < 0 ∨ 2147483647 < Int.tdiv timestamp 1000000 then
    none
  else
    some (Int.tdiv timestamp 1000000)

/-- `TLNFieldFormattingHelper._FormatTimestamp`: converts the timestamp via
the posix-time collaborator; the Python `if not posix_timestamp` falsy test
replaces both `None` and `0` with `0`, then `'{0:d}'.format` renders the
decimal string. -/
def _FormatTimestamp (h : TLNFieldFormattingHelper) (event : EventObject)
    (event_data : EventData) (event_data_stream : EventDataStream) : String :=
  let posix_timestamp : Int :=
    match CopyToPosixTimestamp event.timestamp with
    | none => 0
    | some value => if value = 0 then 0 else value
  toString posix_timestamp

/-- Modelled from the spec: `_FormatHostname` lives on the base class; per
§4.2 it extracts the host scalar, substituting a placeholder for a missing
attribute, never failing the record. -/
def _FormatHostname (h : TLNFieldFormattingHelper) (event : EventObject)
    (event_data : EventData) (event_data_stream : EventDataStream) : String :=
  event_data.hostname.getD "-"

/-- Modelled from the spec: `_FormatUsername` lives on the base class; per
§4.2 it extracts the user scalar, substituting a placeholder for a missing
attribute, never failing the record. -/
def _FormatUsername (h : TLNFieldFormattingHelper) (event : EventObject)
    (event_data : EventData) (event_data_stream : EventDataStream) : String :=
  event_data.username.getD "-"

/-- Modelled from the spec: `_FormatSourceShort` lives on the base class;
per §4.2 it derives the short source scalar, substituting a placeholder for
a missing attribute, never failing the record. -/
def _FormatSourceShort (h : TLNFieldFormattingHelper) (event : EventObject)
    (event_data : EventData) (event_data_stream : EventDataStream) : String :=
  event_data.source_short.getD "-"

/-- Modelled from the spec: `_FormatTimeZone` lives on the base class; per
§4.2 it reports the mediator's configured output time zone. -/
def _FormatTimeZone (h : TLNFieldFormattingHelper) (event : EventObject)
    (event_data : EventData) (event_data_stream : EventDataStream) : String :=
  h.output_mediator.timezone_name

/-- `TLNFieldFormattingHelper._FIELD_FORMAT_CALLBACKS`: the fixed mapping
from field name to callback method name, in source order. -/
def _FIELD_FORMAT_CALLBACKS : List (String × String) :=
  [("description", "_FormatDescription"),
   ("host", "_FormatHostname"),
   ("inode", "_FormatInode"),
   ("notes", "_FormatNotes"),
   ("source", "_FormatSourceShort"),
   ("time", "_FormatTimestamp"),
   ("tz", "_FormatTimeZone"),
   ("user", "_FormatUsername")]

/-- Modelled from the spec: the per-field dispatch
(`FormatField(fieldName, event, eventData, eventDataStream) -> string`)
lives on the base `FieldFormattingHelper` class, not in the reviewed
source.  Per §4.1-4.2 it resolves the field name through the registry and
invokes the registered callback; an unknown name is a configuration error.
The helper is threaded through explicitly so that any state a callback
retained or mutated would show in its result; none does. -/
def GetFormattedField (h : TLNFieldFormattingHelper) (field_name : String)
    (event : EventObject) (event_data : EventData)
    (event_data_stream : EventDataStream) :
    Except FormatError String × TLNFieldFormattingHelper :=
  match _FIELD_FORMAT_CALLBACKS.lookup field_name with
  | some "_FormatDescription" =>
      (_FormatDescription h event event_data event_data_stream, h)
  | some "_FormatHostname" =>
      (Except.ok (_FormatHostname h event event_data event_data_stream), h)
  | some "_FormatInode" =>
      (Except.ok (_FormatInode h event event_data event_data_stream), h)
  | some "_FormatNotes" =>
      (Except.ok (_FormatNotes h event event_data event_data_stream), h)
  | some "_FormatSourceShort" =>
      (Except.ok (_FormatSourceShort h event event_data event_data_stream), h)
  | some "_FormatTimestamp" =>
      (Except.ok (_FormatTimestamp h event event_data event_data_stream), h)
  | some "_FormatTimeZone" =>
      (Except.ok (_FormatTimeZone h event event_data event_data_stream), h)
  | some "_FormatUsername" =>
      (Except.ok (_FormatUsername h event event_data event_data_stream), h)
  | _ => (Except.error (FormatError.unknownField field_name), h)

/-- The configuration a DSV output module receives at construction:
mediator, formatting helper, ordered field names, delimiter, header.
Mirrors the arguments `TLNOutputModule.__init__` and
`L2TTLNOutputModule.__init__` pass to `shared_dsv.DSVOutputModule`. -/
structure DSVOutputModule where
  output_mediator : OutputMediator
  field_formatting_helper : TLNFieldFormattingHelper
  field_names : List String
  delimiter : String
  header : String

/-- `TLNOutputModule._FIELD_NAMES`. -/
def TLNOutputModule._FIELD_NAMES : List String :=
  ["time", "source", "host", "user", "description"]

/-- `TLNOutputModule._HEADER`. -/
def TLNOutputModule._HEADER : String := "Time|Source|Host|User|Description"

/-- `TLNOutputModule.__init__`: builds a `TLNFieldFormattingHelper` over
the mediator and passes it with `_FIELD_NAMES`, `delimiter='|'` and
`_HEADER` to the DSV base class. -/
def TLNOutputModule.init (output_mediator : OutputMediator) : DSVOutputModule :=
  let formatting_helper_object : TLNFieldFormattingHelper := ⟨output_mediator⟩
  { output_mediator := output_mediator
    field_formatting_helper := formatting_helper_object
    field_names := TLNOutputModule._FIELD_NAMES
    delimiter := "|"
    header := TLNOutputModule._HEADER }

/-- `L2TTLNOutputModule._FIELD_NAMES`. -/
def L2TTLNOutputModule._FIELD_NAMES : List String :=
  ["time", "source", "host", "user", "description", "tz", "notes"]

/-- `L2TTLNOutputModule._HEADER`. -/
def L2TTLNOutputModule._HEADER : String :=
  "Time|Source|Host|User|Description|TZ|Notes"

/-- `L2TTLNOutputModule.__init__`: identical to the TLN constructor except
for the field-name list and the header. -/
def L2TTLNOutputModule.init (output_mediator : OutputMediator) : DSVOutputModule :=
  let formatting_helper_object : TLNFieldFormattingHelper := ⟨output_mediator⟩
  { output_mediator := output_mediator
    field_formatting_helper := formatting_helper_object
    field_names := L2TTLNOutputModule._FIELD_NAMES
    delimiter := "|"
    header := L2TTLNOutputModule._HEADER }

/-! ### Concrete fixtures used by witness theorems -/

/-- A mediator whose message formatter resolves every event data to the
message `a;b|c`. -/
def mediatorResolved : OutputMediator :=
  { copyToIsoFormat := fun _ => "2000-01-01T00:00:00"
    getFormattedMessages := fun _ => (some "a;b|c", some "a;b|c")
    timezone_name := "UTC" }

/-- A mediator whose message formatter resolves no event data. -/
def mediatorUnresolved : OutputMediator :=
  { copyToIsoFormat := fun _ => "2000-01-01T00:00:00"
    getFormattedMessages := fun _ => (none, none)
    timezone_name := "UTC" }

/-- A sample event with a `WRITTEN` label. -/
def sampleEvent : EventObject := ⟨946684800000000, some "WRITTEN"⟩

/-- Sample event data with every probed attribute present. -/
def sampleEventData : EventData :=
  { data_type := some "syslog"
    notes := none
    display_name := some "/var/log/auth.log"
    inode := some 42
    hostname := some "h1"
    username := some "bob"
    source_short := some "LOG" }

/-- A sample event data stream. -/
def sampleStream : EventDataStream := ⟨none⟩

/-! ### Theorems -/

/-- C1: whenever the message-formatting collaborator resolves a message,
`_FormatDescription` returns exactly the ISO date-time, the event's
timestamp description (or `UNKNOWN` when the label is absent or empty) and
the message with every `;` replaced by a single space, joined by `; ` in
that order. -/
theorem C1_description_three_segments (h : TLNFieldFormattingHelper)
    (event : EventObject) (event_data : EventData)
    (event_data_stream : EventDataStream) (message : String)
    (hm : (h.output_mediator.getFormattedMessages event_data).1 = some message) :
    _FormatDescription h event event_data event_data_stream =
      Except.ok (h.output_mediator.copyToIsoFormat event.timestamp ++ "; " ++
        (match event.timestamp_desc with
         | none => "UNKNOWN"
         | some label => if label = "" then "UNKNOWN" else label) ++ "; " ++
        String.mk (message.data.map fun c => if c = ';' then ' ' else c)) := by
  simp only [_FormatDescription, replaceDescriptionDelimiter,
    DESCRIPTION_FIELD_DELIMITER]
  rw [hm]

/-- C1 witness: the theorem evaluated at a concrete resolved message. -/
theorem C1_description_witness :
    _FormatDescription ⟨mediatorResolved⟩ sampleEvent sampleEventData
        sampleStream =
      Except.ok "2000-01-01T00:00:00; WRITTEN; a b|c" :=
  (C1_description_three_segments ⟨mediatorResolved⟩ sampleEvent sampleEventData
    sampleStream "a;b|c" rfl).trans (congrArg Except.ok (by decide))

/-- C2: when the message-formatting collaborator cannot resolve a message,
`_FormatDescription` fails with `NoFormatterFound` whose message embeds the
event data's `data_type` (or `UNKNOWN` when absent) as an infix; when a
message is resolved, it returns a description without error. -/
theorem C2_no_formatter_found (h : TLNFieldFormattingHelper)
    (event : EventObject) (event_data : EventData)
    (event_data_stream : EventDataStream) :
    ((h.output_mediator.getFormattedMessages event_data).1 = none →
      _FormatDescription h event event_data event_data_stream =
        Except.error (FormatError.noFormatterFound
          ("Unable to find event formatter for: " ++
            event_data.data_type.getD "UNKNOWN" ++ ".")) ∧
      (event_data.data_type.getD "UNKNOWN").data <:+:
        ("Unable to find event formatter for: " ++
          event_data.data_type.getD "UNKNOWN" ++ ".").data) ∧
    (∀ message,
      (h.output_mediator.getFormattedMessages event_data).1 = some message →
      ∃ description, _FormatDescription h event event_data event_data_stream =
        Except.ok description) := by
  constructor
  · intro hm
    refine ⟨?_, ?_⟩
    · simp only [_FormatDescription]
      rw [hm]
    · exact ⟨"Unable to find event formatter for: ".data, ".".data, by
        simp [String.data_append]⟩
  · intro message hm
    refine ⟨h.output_mediator.copyToIsoFormat event.timestamp ++ "; " ++
      (match event.timestamp_desc with
       | none => "UNKNOWN"
       | some label => if label = "" then "UNKNOWN" else label) ++ "; " ++
      replaceDescriptionDelimiter message, ?_⟩
    simp only [_FormatDescription]
    rw [hm]

/-- C2 witness: the error and success branches evaluated concretely. -/
theorem C2_no_formatter_found_witness :
    _FormatDescription ⟨mediatorUnresolved⟩ sampleEvent sampleEventData
        sampleStream =
      Except.error (FormatError.noFormatterFound
        "Unable to find event formatter for: syslog.") :=
  (((C2_no_formatter_found ⟨mediatorUnresolved⟩ sampleEvent sampleEventData
      sampleStream).1 rfl).1).trans
    (congrArg (fun s => Except.error (FormatError.noFormatterFound s))
      (by decide))

/-- The decimal rendering of a nonnegative integer is the rendering of its
natural-number value. -/
theorem toString_int_ofNat (n : Nat) : toString (Int.ofNat n) = toString n :=
  rfl

/-- C3: `_FormatTimestamp` always returns the decimal string of a
nonnegative whole-second integer, and returns exactly `"0"` whenever the
posix-time conversion produces no value. -/
theorem C3_timestamp_nonnegative_whole (h : TLNFieldFormattingHelper)
    (event : EventObject) (event_data : EventData)
    (event_data_stream : EventDataStream) :
    (∃ n : Nat, _FormatTimestamp h event event_data event_data_stream =
      toString n) ∧
    (CopyToPosixTimestamp event.timestamp = none →
      _FormatTimestamp h event event_data event_data_stream = "0") := by
  constructor
  · rcases hck : CopyToPosixTimestamp event.timestamp with _ | value
    · refine ⟨0, ?_⟩
      simp only [_FormatTimestamp]
      rw [hck]
      rfl
    · have hnn : 0 ≤ value := by
        revert hck
        simp only [CopyToPosixTimestamp]
        split
        · intro hcontra
          exact absurd hcontra (by simp)
        · rename_i hcond
          intro hsome
          have hval : Int.tdiv event.timestamp 1000000 = value :=
            Option.some.inj hsome
          have hts : 0 ≤ event.timestamp := by
            rcases not_or.mp hcond with ⟨hlt, _⟩
            exact le_of_not_lt hlt
          calc (0 : Int) ≤ Int.tdiv event.timestamp 1000000 :=
                Int.tdiv_nonneg hts (by norm_num)
            _ = value := hval
      rcases Int.eq_ofNat_of_zero_le hnn with ⟨n, rfl⟩
      refine ⟨n, ?_⟩
      simp only [_FormatTimestamp]
      rw [hck]
      show toString (if ((n : Int)) = 0 then (0 : Int) else (n : Int)) =
        toString n
      have hid : (if ((n : Int)) = 0 then (0 : Int) else (n : Int)) =
          (n : Int) := by
        split <;> simp_all
      rw [hid]
      exact toString_int_ofNat n
  · intro hnone
    simp only [_FormatTimestamp]
    rw [hnone]
    rfl

/-- C3 witness: a pre-epoch timestamp has no posix conversion and formats
to `"0"`. -/
theorem C3_timestamp_witness :
    CopyToPosixTimestamp (-5000000) = none ∧
    _FormatTimestamp ⟨mediatorResolved⟩ ⟨-5000000, none⟩ sampleEventData
      sampleStream = "0" :=
  ⟨by decide,
    (C3_timestamp_nonnegative_whole ⟨mediatorResolved⟩ ⟨-5000000, none⟩
      sampleEventData sampleStream).2 (by decide)⟩

/-- Sample event data whose `notes` attribute is present but empty. -/
def eventDataEmptyNotes : EventData := { sampleEventData with notes := some "" }

/-- Sample event data with a non-empty `notes` attribute. -/
def eventDataVerbatimNotes : EventData :=
  { sampleEventData with notes := some "already noted" }

/-- C4: with no `notes` attribute, `_FormatNotes` synthesizes
`File: <display_name> inode: <inode>` (display name defaulting to the empty
string, inode from `_FormatInode`); with a non-empty `notes` attribute it
returns that value verbatim. -/
theorem C4_notes_fallback_and_verbatim (h : TLNFieldFormattingHelper)
    (event : EventObject) (event_data : EventData)
    (event_data_stream : EventDataStream) (value : String) :
    (event_data.notes = none →
      _FormatNotes h event event_data event_data_stream =
        "File: " ++ event_data.display_name.getD "" ++ " inode: " ++
          _FormatInode h event event_data event_data_stream) ∧
    (event_data.notes = some value → value ≠ "" →
      _FormatNotes h event event_data event_data_stream = value) := by
  constructor
  · intro hn
    simp [_FormatNotes, hn]
  · intro hn hne
    simp [_FormatNotes, hn, hne]

/-- C4 witness: the fallback and the verbatim branches evaluated
concretely. -/
theorem C4_notes_witness :
    _FormatNotes ⟨mediatorResolved⟩ sampleEvent sampleEventData sampleStream =
      "File: /var/log/auth.log inode: 42" ∧
    _FormatNotes ⟨mediatorResolved⟩ sampleEvent eventDataVerbatimNotes
      sampleStream = "already noted" :=
  ⟨((C4_notes_fallback_and_verbatim ⟨mediatorResolved⟩ sampleEvent
      sampleEventData sampleStream "x").1 rfl).trans (by decide),
   (C4_notes_fallback_and_verbatim ⟨mediatorResolved⟩ sampleEvent
      eventDataVerbatimNotes sampleStream "already noted").2 rfl (by decide)⟩

/-- C5: the two format variants are configured bit-exactly as the spec's
table states: field lists, the `|` delimiter, and the header strings. -/
theorem C5_variant_configurations (output_mediator : OutputMediator) :
    (TLNOutputModule.init output_mediator).field_names =
        ["time", "source", "host", "user", "description"] ∧
    (TLNOutputModule.init output_mediator).delimiter = "|" ∧
    (TLNOutputModule.init output_mediator).header =
        "Time|Source|Host|User|Description" ∧
    (L2TTLNOutputModule.init output_mediator).field_names =
        ["time", "source", "host", "user", "description", "tz", "notes"] ∧
    (L2TTLNOutputModule.init output_mediator).delimiter = "|" ∧
    (L2TTLNOutputModule.init output_mediator).header =
        "Time|Source|Host|User|Description|TZ|Notes" :=
  ⟨rfl, rfl, rfl, rfl, rfl, rfl⟩

/-- C6: every field name of either variant's ordered field list is a key of
`_FIELD_FORMAT_CALLBACKS`, so dispatch never meets an unknown field. -/
theorem C6_every_field_has_callback (field_name : String)
    (hf : field_name ∈ TLNOutputModule._FIELD_NAMES ∨
      field_name ∈ L2TTLNOutputModule._FIELD_NAMES) :
    ∃ callback,
      _FIELD_FORMAT_CALLBACKS.lookup field_name = some callback := by
  rcases hf with hf | hf
  · simp only [TLNOutputModule._FIELD_NAMES, List.mem_cons,
      List.not_mem_nil, or_false] at hf
    rcases hf with rfl | rfl | rfl | rfl | rfl <;> exact ⟨_, rfl⟩
  · simp only [L2TTLNOutputModule._FIELD_NAMES, List.mem_cons,
      List.not_mem_nil, or_false] at hf
    rcases hf with rfl | rfl | rfl | rfl | rfl | rfl | rfl <;> exact ⟨_, rfl⟩

/-- C6 witness: the `time` field resolves to a callback. -/
theorem C6_every_field_has_callback_witness :
    ∃ callback, _FIELD_FORMAT_CALLBACKS.lookup "time" = some callback :=
  C6_every_field_has_callback "time"
    (Or.inl (by simp [TLNOutputModule._FIELD_NAMES]))

/-- C7: given the same mediator, the two modules are built over identical
formatting helpers, mediators and delimiters; the only difference in their
construction is the field-name list and the header. -/
theorem C7_shared_helper (output_mediator : OutputMediator) :
    (TLNOutputModule.init output_mediator).field_formatting_helper =
      (L2TTLNOutputModule.init output_mediator).field_formatting_helper ∧
    (TLNOutputModule.init output_mediator).output_mediator =
      (L2TTLNOutputModule.init output_mediator).output_mediator ∧
    (TLNOutputModule.init output_mediator).delimiter =
      (L2TTLNOutputModule.init output_mediator).delimiter ∧
    (TLNOutputModule.init output_mediator).field_names =
      TLNOutputModule._FIELD_NAMES ∧
    (L2TTLNOutputModule.init output_mediator).field_names =
      L2TTLNOutputModule._FIELD_NAMES ∧
    (TLNOutputModule.init output_mediator).header =
      TLNOutputModule._HEADER ∧
    (L2TTLNOutputModule.init output_mediator).header =
      L2TTLNOutputModule._HEADER :=
  ⟨rfl, rfl, rfl, rfl, rfl, rfl, rfl⟩

/-- C8: field dispatch is stateless and deterministic: `GetFormattedField`
returns the helper unchanged, and a second invocation with the state the
first one returned yields the same output string. -/
theorem C8_stateless_deterministic (h : TLNFieldFormattingHelper)
    (field_name : String) (event : EventObject) (event_data : EventData)
    (event_data_stream : EventDataStream) :
    (GetFormattedField h field_name event event_data event_data_stream).2 =
      h ∧
    (GetFormattedField
        (GetFormattedField h field_name event event_data event_data_stream).2
        field_name event event_data event_data_stream).1 =
      (GetFormattedField h field_name event event_data event_data_stream).1 := by
  have hstate :
      (GetFormattedField h field_name event event_data event_data_stream).2 =
        h := by
    unfold GetFormattedField
    split <;> rfl
  exact ⟨hstate, by rw [hstate]⟩

/-- C9: `_FormatDescription` substitutes only `;` inside the message: a `|`
occurring in the resolved message is still present in the returned
description. -/
theorem C9_pipe_not_substituted (h : TLNFieldFormattingHelper)
    (event : EventObject) (event_data : EventData)
    (event_data_stream : EventDataStream) (message description : String)
    (hm : (h.output_mediator.getFormattedMessages event_data).1 = some message)
    (hp : '|' ∈ message.data)
    (hr : _FormatDescription h event event_data event_data_stream =
      Except.ok description) :
    '|' ∈ description.data := by
  simp only [_FormatDescription] at hr
  rw [hm] at hr
  have hdesc := Except.ok.inj hr
  rw [← hdesc]
  simp only [String.data_append]
  refine List.mem_append_right _ ?_
  simp only [replaceDescriptionDelimiter, DESCRIPTION_FIELD_DELIMITER]
  exact List.mem_map.mpr ⟨'|', hp, rfl⟩

/-- C9 witness: a message containing `|` keeps it in the description. -/
theorem C9_pipe_not_substituted_witness :
    '|' ∈ ("2000-01-01T00:00:00; WRITTEN; a b|c" : String).data :=
  C9_pipe_not_substituted ⟨mediatorResolved⟩ sampleEvent sampleEventData
    sampleStream "a;b|c" "2000-01-01T00:00:00; WRITTEN; a b|c" rfl
    (by decide) (by rfl)

/-- C10: a present-but-empty `notes` attribute is not returned verbatim:
`_FormatNotes` produces the same `File: <display_name> inode: <inode>`
fallback it produces when the attribute is absent. -/
theorem C10_empty_notes_fallback (h : TLNFieldFormattingHelper)
    (event : EventObject) (event_data : EventData)
    (event_data_stream : EventDataStream)
    (hn : event_data.notes = some "") :
    _FormatNotes h event event_data event_data_stream =
      "File: " ++ event_data.display_name.getD "" ++ " inode: " ++
        _FormatInode h event event_data event_data_stream ∧
    _FormatNotes h event { event_data with notes := none }
        event_data_stream =
      _FormatNotes h event event_data event_data_stream := by
  constructor
  · simp [_FormatNotes, hn]
  · simp [_FormatNotes, _FormatInode, hn]

/-- C10 witness: empty notes trigger the synthesized fallback. -/
theorem C10_empty_notes_fallback_witness :
    _FormatNotes ⟨mediatorResolved⟩ sampleEvent eventDataEmptyNotes
      sampleStream = "File: /var/log/auth.log inode: 42" :=
  ((C10_empty_notes_fallback ⟨mediatorResolved⟩ sampleEvent
      eventDataEmptyNotes sampleStream rfl).1).trans (by decide)

end PlasoTLN
